import Mathlib

/-!
# go-lambda-api: authentication gate, Lambda entry point, request logger

A shallow embedding of

* `cmd/lambda/main.go` (`handleRequest`),
* `internal/middleware/auth.go` (`AuthMiddleware`, `writeUnauthorized`),
* `internal/server/server.go` (`New`, `loggingMiddleware`, `responseWriter`),

together with the small part of the Go standard library they call
(`os.Getenv`, `encoding/json`, `net/http` headers and response writers,
`httptest.ResponseRecorder`).

Conventions.  A Go `map[string]string` is an association list read with
`List.lookup`; a Go `(value, ok)` map read is an `Option`; a pointer or
interface value that may be `nil` is an `Option`; the process environment is
an explicit argument; what is sent to the standard logger is returned as a
list of records; a call that may panic returns an `Except`, whose error is
the panic.  `time.Duration` is an integer number of nanoseconds.
-/

set_option autoImplicit false

/-! ## Standard library: `os` -/

namespace os

/-- The process environment: the variables that are set, with their values. -/
abbrev Env := List (String × String)

/-- Go `os.Getenv`: the value of the variable, the empty string when it is unset. -/
def Getenv (env : Env) (key : String) : String :=
  match env.lookup key with
  | some v => v
  | none => ""

end os

/-! ## Standard library: `encoding/json` -/

namespace json

/-- Go `const hex = "0123456789abcdef"` of `encoding/json`. -/
def hex (n : Nat) : Char := "0123456789abcdef".data.getD n (Char.ofNat 48)

/-- One character of a JSON string literal as `encoding/json` writes it with
HTML escaping on (the default of `Marshal` and of `Encoder`). -/
def escapeChar (c : Char) : List Char :=
  let b := c.toNat
  if b = 34 ∨ b = 92 then [Char.ofNat 92, c]
  else if b = 8 then [Char.ofNat 92, Char.ofNat 98]
  else if b = 12 then [Char.ofNat 92, Char.ofNat 102]
  else if b = 10 then [Char.ofNat 92, Char.ofNat 110]
  else if b = 13 then [Char.ofNat 92, Char.ofNat 114]
  else if b = 9 then [Char.ofNat 92, Char.ofNat 116]
  else if b < 32 ∨ b = 60 ∨ b = 62 ∨ b = 38 then
    [Char.ofNat 92, Char.ofNat 117, Char.ofNat 48, Char.ofNat 48, hex (b / 16), hex (b % 16)]
  else if b = 8232 ∨ b = 8233 then
    [Char.ofNat 92, Char.ofNat 117, Char.ofNat 50, Char.ofNat 48, Char.ofNat 50, hex (b % 16)]
  else [c]

/-- A Go string as a JSON string literal. -/
def quote (s : String) : String :=
  String.mk (Char.ofNat 34 :: (s.data.flatMap escapeChar ++ [Char.ofNat 34]))

/-- The Go values a struct field holds here: a string, or a value of a kind
`encoding/json` refuses (a channel, a function, a complex number). -/
inductive Value where
  | string (s : String)
  | unsupported (kind : String)
deriving DecidableEq, Repr

/-- An exported struct field under its JSON name (the `json:"..."` tag). -/
structure Field where
  name : String
  value : Value
deriving DecidableEq, Repr

/-- Go `json.UnsupportedTypeError`. -/
structure UnsupportedTypeError where
  kind : String
deriving DecidableEq, Repr

/-- The encoding of one value. -/
def encodeValue : Value → Except UnsupportedTypeError String
  | .string s => .ok (quote s)
  | .unsupported kind => .error ⟨kind⟩

/-- The members of an object, comma separated, in field order. -/
def encodeFields : List Field → Except UnsupportedTypeError (List String)
  | [] => .ok []
  | f :: fs =>
    match encodeValue f.value with
    | .error e => .error e
    | .ok v =>
      match encodeFields fs with
      | .error e => .error e
      | .ok rest => .ok ((quote f.name ++ ":" ++ v) :: rest)

/-- Go `json.Marshal` of a struct value, given by its exported fields in
declaration order: the object's text, or the error of the first field that
cannot be encoded. -/
def Marshal (fields : List Field) : Except UnsupportedTypeError String :=
  match encodeFields fields with
  | .error e => .error e
  | .ok members => .ok ("\x7b" ++ ",".intercalate members ++ "\x7d")

end json

/-! ## Standard library: `net/http` status codes -/

namespace http

def StatusOK : Int := 200
def StatusUnauthorized : Int := 401
def StatusNotFound : Int := 404
def StatusInternalServerError : Int := 500

end http

/-! ## `internal/handlers`: the health payload -/

namespace handlers

/-- The health payload `handlers.HealthResponse`; `handleRequest` builds it
with the one field `Status`. -/
structure HealthResponse where
  Status : String
deriving DecidableEq, Repr

/-- Modelled from the spec: the declaration of `handlers.HealthResponse`
(`internal/handlers/handlers.go`) is not among the sources, so the JSON name
of its field `Status` is taken from the spec's health body, whose only member
is named `status`. -/
def HealthResponse.jsonFields (r : HealthResponse) : List json.Field :=
  [⟨"status", .string r.Status⟩]

end handlers

/-! ## `github.com/aws/aws-lambda-go/events`: the invocation envelope -/

namespace events

/-- The fields of `events.APIGatewayV2HTTPRequest` a handler can branch on;
`Method` is `RequestContext.HTTP.Method`. -/
structure APIGatewayV2HTTPRequest where
  RawPath : String
  RawQueryString : String
  Headers : List (String × String)
  Method : String
  Body : String
  IsBase64Encoded : Bool
deriving DecidableEq, Repr

/-- The fields of `events.APIGatewayV2HTTPResponse` that `handleRequest` sets. -/
structure APIGatewayV2HTTPResponse where
  StatusCode : Int
  Headers : List (String × String)
  Body : String
deriving DecidableEq, Repr

end events

/-! ## `cmd/lambda/main.go` -/

namespace cmd.lambda

/-- A Go `error` value; `none` is `nil`. -/
abbrev error := Option String

/-- The header map every response of `handleRequest` carries. -/
def jsonHeaders : List (String × String) := [("Content-Type", "application/json")]

/-- The Lambda entry point `handleRequest` of `cmd/lambda/main.go`.  The
unused `context.Context` argument is dropped and the environment read by
`os.Getenv` is the argument `env`. -/
def handleRequest (env : os.Env) (request : events.APIGatewayV2HTTPRequest) :
    events.APIGatewayV2HTTPResponse × error :=
  if request.RawPath = "/health" then
    let response : handlers.HealthResponse := { Status := "ok" }
    match json.Marshal response.jsonFields with
    | .error _ =>
      ({ StatusCode := http.StatusInternalServerError,
         Body := "\x7b\"error\":\"Internal server error\"\x7d",
         Headers := jsonHeaders }, none)
    | .ok body =>
      ({ StatusCode := http.StatusOK,
         Body := body,
         Headers := jsonHeaders }, none)
  else
    match request.Headers.lookup "x-api-key" with
    | none =>
      ({ StatusCode := http.StatusUnauthorized,
         Body := "\x7b\"error\":\"Missing API key\"\x7d",
         Headers := jsonHeaders }, none)
    | some apiKey =>
      let expectedAPIKey := os.Getenv env "API_KEY"
      if expectedAPIKey = "" then
        ({ StatusCode := http.StatusUnauthorized,
           Body := "\x7b\"error\":\"API key not configured\"\x7d",
           Headers := jsonHeaders }, none)
      else if apiKey ≠ expectedAPIKey then
        ({ StatusCode := http.StatusUnauthorized,
           Body := "\x7b\"error\":\"Invalid API key\"\x7d",
           Headers := jsonHeaders }, none)
      else
        ({ StatusCode := http.StatusNotFound,
           Body := "\x7b\"error\":\"Not found\"\x7d",
           Headers := jsonHeaders }, none)

end cmd.lambda


/-! ## Standard library: `net/http` headers, requests, response writers -/

namespace http

/-- Go `http.Header`, a `map[string][]string`; the nil map reads as the empty one. -/
abbrev Header := List (String × List String)

/-- The bytes `net/textproto` accepts in a header field name (RFC 7230 token
characters), by character code. -/
def validHeaderFieldByte (c : Char) : Bool :=
  let b := c.toNat
  (48 ≤ b && b ≤ 57) || (65 ≤ b && b ≤ 90) || (97 ≤ b && b ≤ 122) ||
    [33, 35, 36, 37, 38, 39, 42, 43, 45, 46, 94, 95, 96, 124, 126].contains b

/-- The loop of `textproto.canonicalMIMEHeaderKey`: the first letter and every
letter after a hyphen in upper case, the other letters in lower case. -/
def canonicalChars : Bool → List Char → List Char
  | _, [] => []
  | upper, c :: cs =>
    let c1 := if upper then c.toUpper else c.toLower
    c1 :: canonicalChars (c1.toNat == 45) cs

/-- Go `http.CanonicalHeaderKey`: a name with a byte that is not a token
character is returned unchanged. -/
def CanonicalHeaderKey (s : String) : String :=
  if s.data.all validHeaderFieldByte then String.mk (canonicalChars true s.data) else s

/-- Go `Header.Get`: the first value stored under the canonical form of the
key, the empty string when there is none. -/
def Header.Get (h : Header) (key : String) : String :=
  match h.lookup (CanonicalHeaderKey key) with
  | some (v :: _) => v
  | _ => ""

/-- Go `Header.Del`. -/
def Header.Del (h : Header) (key : String) : Header :=
  h.filter (fun e => e.1 != CanonicalHeaderKey key)

/-- Go `Header.Set`: the canonical key now holds the single value. -/
def Header.Set (h : Header) (key value : String) : Header :=
  (CanonicalHeaderKey key, [value]) :: h.Del key

/-- Go `url.URL`, reduced to the path. -/
structure URL where
  Path : String
deriving DecidableEq, Repr

/-- The fields of `http.Request` that the handlers of this repository read. -/
structure Request where
  Method : String
  URL : URL
  Header : Header
  RemoteAddr : String
deriving DecidableEq, Repr

/-- A Go panic raised by a response writer.  No function of this repository
recovers, so a panic unwinds through every handler and middleware above the
call; what had been written or logged before it is not kept. -/
inductive Panic where
  | invalidWriteHeaderCode (code : Int)
  | other (value : String)
deriving DecidableEq, Repr

/-- Go `checkWriteHeaderCode`: a status code outside 100..999 panics. -/
def checkWriteHeaderCode (code : Int) : Except Panic Unit :=
  if code < 100 ∨ code > 999 then .error (.invalidWriteHeaderCode code) else .ok ()

/-- Go interface `http.ResponseWriter`.  `Header()` returns the live header
map of the writer, so a mutation of that map is a read with `Header` followed
by a store with `storeHeader`.  `Write` and `WriteHeader` return the writer
after the call, or the panic they raise.  The byte count and error returned
by `Write` are not kept: no caller in this repository uses them to branch. -/
class ResponseWriter (W : Type) where
  Header : W → http.Header
  storeHeader : W → http.Header → W
  Write : W → String → Except Panic W
  WriteHeader : W → Int → Except Panic W

/-- The statement `w.Header().Set(key, value)`. -/
def setHeader {W : Type} [ResponseWriter W] (w : W) (key value : String) : W :=
  ResponseWriter.storeHeader w ((ResponseWriter.Header w).Set key value)

/-- The statement `w.Header().Del(key)`. -/
def delHeader {W : Type} [ResponseWriter W] (w : W) (key : String) : W :=
  ResponseWriter.storeHeader w ((ResponseWriter.Header w).Del key)

end http

/-! ## The standard logger output for this repository -/

namespace server

/-- One line written by `loggingMiddleware` through `log.Printf`: remote
address, method, path and status code.  The fifth value of the line, the
elapsed wall-clock time, is not part of the model. -/
structure LogLine where
  RemoteAddr : String
  Method : String
  Path : String
  statusCode : Int
deriving DecidableEq, Repr

end server

namespace http

/-- Go `http.HandlerFunc` and `http.Handler`: a handler works on any
implementation of `ResponseWriter`; it reads the process environment and
either returns, giving the writer after its calls and the lines it logged, or
panics. -/
def HandlerFunc : Type 1 :=
  (W : Type) → [ResponseWriter W] → os.Env → W → Request →
    Except Panic (W × List server.LogLine)

abbrev Handler : Type 1 := HandlerFunc

/-- Go `http.Error`. -/
def Error {W : Type} [ResponseWriter W] (w : W) (error : String) (code : Int) :
    Except Panic W :=
  let w := delHeader w "Content-Length"
  let w := setHeader w "Content-Type" "text/plain; charset=utf-8"
  let w := setHeader w "X-Content-Type-Options" "nosniff"
  match ResponseWriter.WriteHeader w code with
  | .error p => .error p
  | .ok w => ResponseWriter.Write w (error ++ "\n")

/-- Go `http.NotFound`. -/
def NotFound : HandlerFunc := fun _ _ _ w _ =>
  match Error w "404 page not found" StatusNotFound with
  | .error p => .error p
  | .ok w => .ok (w, [])

/-- Go `http.ServeMux` with the patterns this repository registers: plain
paths without a host, a method or a trailing slash, which match a request
path exactly.  The request path is taken as already clean (the redirect of an
unclean path is not modelled). -/
structure ServeMux where
  entries : List (String × HandlerFunc)

/-- Go `http.NewServeMux`. -/
def NewServeMux : ServeMux := { entries := [] }

/-- Go `ServeMux.HandleFunc`. -/
def ServeMux.HandleFunc (mux : ServeMux) (pattern : String) (handler : HandlerFunc) :
    ServeMux :=
  { entries := mux.entries ++ [(pattern, handler)] }

/-- Go `ServeMux.ServeHTTP`: the handler registered for the path, `NotFound`
when there is none. -/
def ServeMux.ServeHTTP (mux : ServeMux) : Handler := fun W _ env w r =>
  match mux.entries.lookup r.URL.Path with
  | some h => h W env w r
  | none => NotFound W env w r

end http

/-! ## Standard library: `net/http/httptest` -/

namespace httptest

/-- Go `httptest.ResponseRecorder`.  `Body` is the `*bytes.Buffer`, `none`
when nil.  The recorder is indexed by the function `DetectContentType`, which
stands for Go `http.DetectContentType`, the content sniffer applied on an
implicit header write: every statement about recorders below holds whatever
that function returns. -/
structure ResponseRecorder (DetectContentType : String → String) where
  Code : Int
  HeaderMap : http.Header
  Body : Option String
  snapHeader : http.Header
  wroteHeader : Bool
deriving DecidableEq, Repr

variable {DetectContentType : String → String}

/-- Go `httptest.NewRecorder`. -/
def NewRecorder (DetectContentType : String → String) :
    ResponseRecorder DetectContentType :=
  { Code := 200, HeaderMap := [], Body := some "", snapHeader := [], wroteHeader := false }

/-- Go `ResponseRecorder.WriteHeader`: ignored once the header is written;
otherwise the code is checked, recorded, and the headers are snapshotted. -/
def ResponseRecorder.WriteHeader (rw : ResponseRecorder DetectContentType) (code : Int) :
    Except http.Panic (ResponseRecorder DetectContentType) :=
  if rw.wroteHeader then .ok rw
  else
    match http.checkWriteHeaderCode code with
    | .error p => .error p
    | .ok _ => .ok { rw with Code := code, wroteHeader := true, snapHeader := rw.HeaderMap }

/-- Go `ResponseRecorder.writeHeader(b, "")`, the implicit header write of
`Write`: nothing once the header is written; otherwise, unless a Content-Type
key or a Transfer-Encoding value is present, Content-Type is set to what the
sniffer detects in `b`, and then `WriteHeader(200)`. -/
def ResponseRecorder.writeHeader (rw : ResponseRecorder DetectContentType) (b : String) :
    Except http.Panic (ResponseRecorder DetectContentType) :=
  if rw.wroteHeader then .ok rw
  else
    let m := rw.HeaderMap
    let hasType := (m.lookup "Content-Type").isSome
    let hasTE := m.Get "Transfer-Encoding" != ""
    let m := if !hasType && !hasTE then m.Set "Content-Type" (DetectContentType b) else m
    ResponseRecorder.WriteHeader { rw with HeaderMap := m } 200

/-- Go `ResponseRecorder.Write`. -/
def ResponseRecorder.Write (rw : ResponseRecorder DetectContentType) (buf : String) :
    Except http.Panic (ResponseRecorder DetectContentType) :=
  match rw.writeHeader buf with
  | .error p => .error p
  | .ok rw => .ok { rw with Body := rw.Body.map (fun body => body ++ buf) }

instance : http.ResponseWriter (ResponseRecorder DetectContentType) where
  Header rw := rw.HeaderMap
  storeHeader rw h := { rw with HeaderMap := h }
  Write := ResponseRecorder.Write
  WriteHeader := ResponseRecorder.WriteHeader

/-- The status code of `ResponseRecorder.Result()`: the recorded code, 200
when that is 0. -/
def ResponseRecorder.ResultStatusCode (rw : ResponseRecorder DetectContentType) : Int :=
  if rw.Code = 0 then 200 else rw.Code

/-- The headers of `ResponseRecorder.Result()`: those snapshotted when the
header was written, the live map when it never was. -/
def ResponseRecorder.ResultHeader (rw : ResponseRecorder DetectContentType) : http.Header :=
  if rw.wroteHeader then rw.snapHeader else rw.HeaderMap

end httptest

/-! ## `internal/middleware/auth.go` -/

namespace json

/-- Go `json.NewEncoder(w).Encode(v)` for a struct value: one `Write` of the
marshalled text followed by a newline; nothing is written when marshalling
fails. -/
def Encode {W : Type} [http.ResponseWriter W] (w : W) (fields : List Field) :
    Except http.Panic (W × Option UnsupportedTypeError) :=
  match Marshal fields with
  | .error e => .ok (w, some e)
  | .ok b =>
    match http.ResponseWriter.Write w (b ++ "\n") with
    | .error p => .error p
    | .ok w => .ok (w, none)

end json

namespace middleware

/-- Go `type ErrorResponse struct { Error string (json "error") }`. -/
structure ErrorResponse where
  Error : String
deriving DecidableEq, Repr

/-- The exported fields of `ErrorResponse` under their JSON names. -/
def ErrorResponse.jsonFields (r : ErrorResponse) : List json.Field :=
  [⟨"error", .string r.Error⟩]

/-- Go `writeUnauthorized`; the error of the encoder is dropped, as in the source. -/
def writeUnauthorized {W : Type} [http.ResponseWriter W] (w : W) (message : String) :
    Except http.Panic W :=
  let w := http.setHeader w "Content-Type" "application/json"
  match http.ResponseWriter.WriteHeader w http.StatusUnauthorized with
  | .error p => .error p
  | .ok w =>
    match json.Encode w (ErrorResponse.jsonFields { Error := message }) with
    | .error p => .error p
    | .ok out => .ok out.1

/-- Go `AuthMiddleware`.  A branch `writeUnauthorized(w, ...); return` gives
the writer after that call and logs nothing. -/
def AuthMiddleware (next : http.HandlerFunc) : http.HandlerFunc := fun W _ env w r =>
  let apiKey := os.Getenv env "API_KEY"
  if apiKey = "" then
    (writeUnauthorized w "API key not configured").map (fun w => (w, []))
  else
    let requestAPIKey := r.Header.Get "X-API-Key"
    if requestAPIKey = "" then
      (writeUnauthorized w "Missing API key").map (fun w => (w, []))
    else if requestAPIKey ≠ apiKey then
      (writeUnauthorized w "Invalid API key").map (fun w => (w, []))
    else
      next W env w r

end middleware

/-! ## `internal/server/server.go` -/

namespace time

/-- Go `time.Duration`, in nanoseconds. -/
abbrev Duration := Int

def Second : Duration := 1000000000

end time

namespace http

/-- The fields of `http.Server` that `server.New` sets. -/
structure Server where
  Addr : String
  Handler : Option Handler
  ReadTimeout : time.Duration
  WriteTimeout : time.Duration
  IdleTimeout : time.Duration

end http

namespace server

/-- Go `type Server struct { httpServer *http.Server }`. -/
structure Server where
  httpServer : Option http.Server

/-- Go `type responseWriter struct { http.ResponseWriter; statusCode int }`. -/
structure responseWriter (W : Type) where
  ResponseWriter : W
  statusCode : Int

/-- Go `func (rw *responseWriter) WriteHeader(code int)`: the code is stored,
then passed to the embedded writer. -/
def responseWriter.WriteHeader {W : Type} [http.ResponseWriter W]
    (rw : responseWriter W) (code : Int) : Except http.Panic (responseWriter W) :=
  let rw : responseWriter W := { rw with statusCode := code }
  match http.ResponseWriter.WriteHeader rw.ResponseWriter code with
  | .error p => .error p
  | .ok w => .ok { rw with ResponseWriter := w }

/-- The method set of `*responseWriter`: `WriteHeader` is its own, `Header`
and `Write` are promoted from the embedded writer. -/
instance {W : Type} [http.ResponseWriter W] : http.ResponseWriter (responseWriter W) where
  Header rw := http.ResponseWriter.Header rw.ResponseWriter
  storeHeader rw h :=
    { rw with ResponseWriter := http.ResponseWriter.storeHeader rw.ResponseWriter h }
  Write rw buf :=
    match http.ResponseWriter.Write rw.ResponseWriter buf with
    | .error p => .error p
    | .ok w => .ok { rw with ResponseWriter := w }
  WriteHeader := responseWriter.WriteHeader

/-- Go `loggingMiddleware`.  The line is logged after `next` returns; when
`next` panics the `log.Printf` is never reached. -/
def loggingMiddleware (next : http.Handler) : http.Handler := fun W _ env w r =>
  let rw : responseWriter W := { ResponseWriter := w, statusCode := http.StatusOK }
  match next (responseWriter W) env rw r with
  | .error p => .error p
  | .ok out =>
    .ok (out.1.ResponseWriter,
      out.2 ++ [{ RemoteAddr := r.RemoteAddr, Method := r.Method, Path := r.URL.Path,
                  statusCode := out.1.statusCode }])

/-- Go `server.New`.  `handlers.HealthHandler` (`internal/handlers/handlers.go`,
not among the sources) is the argument `HealthHandler`. -/
def New (HealthHandler : http.HandlerFunc) (addr : String) : Option Server :=
  let mux := http.NewServeMux
  let mux := mux.HandleFunc "/health" HealthHandler
  let handler := loggingMiddleware mux.ServeHTTP
  let httpServer : http.Server :=
    { Addr := addr,
      Handler := some handler,
      ReadTimeout := 15 * time.Second,
      WriteTimeout := 15 * time.Second,
      IdleTimeout := 60 * time.Second }
  some { httpServer := some httpServer }

end server

/-! ## Handlers used to exercise the middleware -/

namespace handlertest

/-- One call a handler makes on the writer it was given. -/
inductive Call where
  | WriteHeader (code : Int)
  | Write (body : String)
deriving DecidableEq, Repr

/-- The writer after the calls, in order; a panic ends them. -/
def perform {W : Type} [http.ResponseWriter W] : List Call → W → Except http.Panic W
  | [], w => .ok w
  | .WriteHeader code :: cs, w =>
    match http.ResponseWriter.WriteHeader w code with
    | .error p => .error p
    | .ok w => perform cs w
  | .Write body :: cs, w =>
    match http.ResponseWriter.Write w body with
    | .error p => .error p
    | .ok w => perform cs w

/-- The handler that makes exactly the given calls and logs nothing. -/
def calling (calls : List Call) : http.HandlerFunc := fun _ _ _ w _ =>
  match perform calls w with
  | .error p => .error p
  | .ok w => .ok (w, [])

/-- The mock handler of `TestAuthMiddleware`: `WriteHeader(200)`, then
`Write("success")`. -/
def mockHandler : http.HandlerFunc := calling [.WriteHeader 200, .Write "success"]

/-- The request `httptest.NewRequest(method, path, nil)` with the given headers. -/
def NewRequest (method path : String) (header : http.Header) : http.Request :=
  { Method := method, URL := { Path := path }, Header := header,
    RemoteAddr := "192.0.2.1:1234" }

/-- A content sniffer for the closed examples: the value Go
`http.DetectContentType` gives for the short plain ASCII texts written there. -/
def sniffText : String → String := fun _ => "text/plain; charset=utf-8"

end handlertest

/-! ## The Lambda entry point -/

namespace cmd.lambda

/-- C6: health bypasses authentication in `handleRequest`. For every request
whose `RawPath` is exactly "/health", whatever its method, its headers and the
configured secret, the response has status 200, the header
Content-Type: application/json, the body exactly the object with the single
member status = "ok", and the returned error is nil. -/
theorem handleRequest_health (env : os.Env) (request : events.APIGatewayV2HTTPRequest)
    (h : request.RawPath = "/health") :
    handleRequest env request =
      ({ StatusCode := 200,
         Headers := [("Content-Type", "application/json")],
         Body := "\x7b\"status\":\"ok\"\x7d" }, none) := by
  unfold handleRequest
  rw [if_pos h]
  decide

/-- The scenario of C6: secret "k1", credential "k2", path "/health", method
POST: 200 with the health body. -/
theorem handleRequest_health_witness :
    handleRequest [("API_KEY", "k1")]
      { RawPath := "/health", RawQueryString := "", Headers := [("x-api-key", "k2")],
        Method := "POST", Body := "", IsBase64Encoded := false } =
      ({ StatusCode := 200,
         Headers := [("Content-Type", "application/json")],
         Body := "\x7b\"status\":\"ok\"\x7d" }, none) :=
  handleRequest_health [("API_KEY", "k1")]
    { RawPath := "/health", RawQueryString := "", Headers := [("x-api-key", "k2")],
      Method := "POST", Body := "", IsBase64Encoded := false } (by decide)

/-- C7: for a request off the health path and a non-empty configured secret,
a credential stored under "x-api-key" that equals the secret gives 404 with
Content-Type: application/json and the body "Not found" object, and a
non-empty credential that differs from the secret gives 401 with the
"Invalid API key" object. -/
theorem handleRequest_authenticated (env : os.Env)
    (request : events.APIGatewayV2HTTPRequest) (apiKey : String)
    (hpath : request.RawPath ≠ "/health")
    (hsecret : os.Getenv env "API_KEY" ≠ "")
    (hheader : request.Headers.lookup "x-api-key" = some apiKey) :
    (apiKey = os.Getenv env "API_KEY" →
      handleRequest env request =
        ({ StatusCode := 404,
           Headers := [("Content-Type", "application/json")],
           Body := "\x7b\"error\":\"Not found\"\x7d" }, none)) ∧
    (apiKey ≠ "" → apiKey ≠ os.Getenv env "API_KEY" →
      handleRequest env request =
        ({ StatusCode := 401,
           Headers := [("Content-Type", "application/json")],
           Body := "\x7b\"error\":\"Invalid API key\"\x7d" }, none)) := by
  unfold handleRequest
  rw [if_neg hpath, hheader]
  constructor
  · intro heq
    simp only [if_neg hsecret, heq, ne_eq, not_true_eq_false, if_false]
    rfl
  · intro _ hne
    simp only [if_neg hsecret, ne_eq, hne, not_false_eq_true, if_true]
    rfl

/-- C7 at secret "abc123" and path "/orders": the credential "abc123" gives
404, the credential "wrong" gives 401 "Invalid API key". -/
theorem handleRequest_authenticated_witness :
    handleRequest [("API_KEY", "abc123")]
      { RawPath := "/orders", RawQueryString := "", Headers := [("x-api-key", "abc123")],
        Method := "GET", Body := "", IsBase64Encoded := false } =
      ({ StatusCode := 404,
         Headers := [("Content-Type", "application/json")],
         Body := "\x7b\"error\":\"Not found\"\x7d" }, none) ∧
    handleRequest [("API_KEY", "abc123")]
      { RawPath := "/orders", RawQueryString := "", Headers := [("x-api-key", "wrong")],
        Method := "GET", Body := "", IsBase64Encoded := false } =
      ({ StatusCode := 401,
         Headers := [("Content-Type", "application/json")],
         Body := "\x7b\"error\":\"Invalid API key\"\x7d" }, none) :=
  ⟨(handleRequest_authenticated [("API_KEY", "abc123")]
      { RawPath := "/orders", RawQueryString := "", Headers := [("x-api-key", "abc123")],
        Method := "GET", Body := "", IsBase64Encoded := false } "abc123"
      (by decide) (by decide) (by decide)).1 (by decide),
   (handleRequest_authenticated [("API_KEY", "abc123")]
      { RawPath := "/orders", RawQueryString := "", Headers := [("x-api-key", "wrong")],
        Method := "GET", Body := "", IsBase64Encoded := false } "wrong"
      (by decide) (by decide) (by decide)).2 (by decide) (by decide)⟩

/-- Every response of `handleRequest` is one of six records. -/
theorem handleRequest_cases (env : os.Env) (request : events.APIGatewayV2HTTPRequest) :
    (handleRequest env request).2 = none ∧
    (handleRequest env request).1.Headers = [("Content-Type", "application/json")] ∧
    ((handleRequest env request).1.StatusCode = 200 ∨
     (handleRequest env request).1.StatusCode = 401 ∨
     (handleRequest env request).1.StatusCode = 404 ∨
     (handleRequest env request).1.StatusCode = 500) := by
  by_cases hpath : request.RawPath = "/health"
  · unfold handleRequest
    rw [if_pos hpath]
    decide
  · unfold handleRequest
    rw [if_neg hpath]
    split
    · simp [jsonHeaders, http.StatusUnauthorized]
    · dsimp only
      split
      · simp [jsonHeaders, http.StatusUnauthorized]
      · split <;> simp [jsonHeaders, http.StatusUnauthorized, http.StatusNotFound]

/-- C10: authentication cannot be bypassed in `handleRequest`. Off the health
path, a status other than 401 implies that the configured secret is non-empty
and that the header map holds, under the key "x-api-key", exactly the secret;
so an empty or unset secret, an absent header or a header value that differs
from the secret all give 401. Every response has a status among 200, 401, 404
and 500, the header Content-Type: application/json and a nil error. -/
theorem handleRequest_no_bypass (env : os.Env) (request : events.APIGatewayV2HTTPRequest) :
    (request.RawPath ≠ "/health" → (handleRequest env request).1.StatusCode ≠ 401 →
      os.Getenv env "API_KEY" ≠ "" ∧
      request.Headers.lookup "x-api-key" = some (os.Getenv env "API_KEY")) ∧
    (request.RawPath ≠ "/health" →
      (os.Getenv env "API_KEY" = "" ∨
        request.Headers.lookup "x-api-key" = none ∨
        ∃ v, request.Headers.lookup "x-api-key" = some v ∧ v ≠ os.Getenv env "API_KEY") →
      (handleRequest env request).1.StatusCode = 401) ∧
    ((handleRequest env request).1.StatusCode ∈ ([200, 401, 404, 500] : List Int) ∧
      (handleRequest env request).1.Headers.lookup "Content-Type" = some "application/json" ∧
      (handleRequest env request).2 = none) := by
  have key : request.RawPath ≠ "/health" →
      (handleRequest env request).1.StatusCode ≠ 401 →
      os.Getenv env "API_KEY" ≠ "" ∧
      request.Headers.lookup "x-api-key" = some (os.Getenv env "API_KEY") := by
    intro hpath
    unfold handleRequest
    rw [if_neg hpath]
    split
    · intro hst
      exact absurd rfl hst
    · rename_i apiKey hheader
      dsimp only
      split
      · intro hst
        exact absurd rfl hst
      · rename_i hsecret
        split
        · intro hst
          exact absurd rfl hst
        · rename_i heq
          intro _
          have hk : apiKey = os.Getenv env "API_KEY" := not_not.mp heq
          exact ⟨hsecret, by rw [hheader, hk]⟩
  refine ⟨key, ?_, ?_⟩
  · intro hpath hdeny
    by_contra hst
    obtain ⟨hsecret, hheader⟩ := key hpath hst
    rcases hdeny with h | h | ⟨v, hv, hne⟩
    · exact hsecret h
    · rw [hheader] at h
      exact Option.noConfusion h
    · rw [hheader] at hv
      exact hne (Option.some.inj hv).symm
  · obtain ⟨herr, hhdr, hst⟩ := handleRequest_cases env request
    refine ⟨?_, ?_, herr⟩
    · rcases hst with h | h | h | h <;> simp [h]
    · rw [hhdr]
      decide

/-- C10 at secret "abc123", path "/unknown" and the right credential: the
status 404 is not 401, and the secret is indeed set and carried by the
request. -/
theorem handleRequest_no_bypass_witness :
    os.Getenv [("API_KEY", "abc123")] "API_KEY" ≠ "" ∧
    ([("x-api-key", "abc123")] : List (String × String)).lookup "x-api-key" =
      some (os.Getenv [("API_KEY", "abc123")] "API_KEY") :=
  (handleRequest_no_bypass [("API_KEY", "abc123")]
    { RawPath := "/unknown", RawQueryString := "", Headers := [("x-api-key", "abc123")],
      Method := "GET", Body := "", IsBase64Encoded := false }).1 (by decide) (by decide)

/-- C4 on the code: with secret "abc123" and path "/unknown", the credential
"abc123" carried under the name "X-API-Key", the name the annotation of
`handleRequest` documents, gives 401 "Missing API key", while the same
credential under "x-api-key" gives 404 "Not found": the header name is read
as an exact map key, not case-insensitively. -/
theorem handleRequest_header_name_case_sensitive :
    handleRequest [("API_KEY", "abc123")]
      { RawPath := "/unknown", RawQueryString := "", Headers := [("X-API-Key", "abc123")],
        Method := "GET", Body := "", IsBase64Encoded := false } =
      ({ StatusCode := 401,
         Headers := [("Content-Type", "application/json")],
         Body := "\x7b\"error\":\"Missing API key\"\x7d" }, none) ∧
    handleRequest [("API_KEY", "abc123")]
      { RawPath := "/unknown", RawQueryString := "", Headers := [("x-api-key", "abc123")],
        Method := "GET", Body := "", IsBase64Encoded := false } =
      ({ StatusCode := 404,
         Headers := [("Content-Type", "application/json")],
         Body := "\x7b\"error\":\"Not found\"\x7d" }, none) ∧
    handleRequest [("API_KEY", "abc123")]
      { RawPath := "/unknown", RawQueryString := "", Headers := [("X-API-Key", "abc123")],
        Method := "GET", Body := "", IsBase64Encoded := false } ≠
    handleRequest [("API_KEY", "abc123")]
      { RawPath := "/unknown", RawQueryString := "", Headers := [("x-api-key", "abc123")],
        Method := "GET", Body := "", IsBase64Encoded := false } := by
  decide

/-- The credential read of `handleRequest` is an exact read of the key
"x-api-key": off the health path two requests whose header maps agree at that
key get the same response, whatever else they carry. -/
theorem handleRequest_header_exact_key (env : os.Env)
    (r1 r2 : events.APIGatewayV2HTTPRequest)
    (h1 : r1.RawPath ≠ "/health") (h2 : r2.RawPath ≠ "/health")
    (hkey : r1.Headers.lookup "x-api-key" = r2.Headers.lookup "x-api-key") :
    handleRequest env r1 = handleRequest env r2 := by
  unfold handleRequest
  rw [if_neg h1, if_neg h2, hkey]

/-- C3 on the code: with the secret unset, no "x-api-key" header and path
"/anything", `handleRequest` answers 401 "Missing API key", not
"API key not configured"; the header is looked up before the secret is read. -/
theorem handleRequest_secret_unset_header_absent :
    handleRequest []
      { RawPath := "/anything", RawQueryString := "", Headers := [],
        Method := "GET", Body := "", IsBase64Encoded := false } =
      ({ StatusCode := 401,
         Headers := [("Content-Type", "application/json")],
         Body := "\x7b\"error\":\"Missing API key\"\x7d" }, none) ∧
    handleRequest [("API_KEY", "")]
      { RawPath := "/anything", RawQueryString := "", Headers := [],
        Method := "GET", Body := "", IsBase64Encoded := false } =
      ({ StatusCode := 401,
         Headers := [("Content-Type", "application/json")],
         Body := "\x7b\"error\":\"Missing API key\"\x7d" }, none) := by
  decide

/-- C5 on the code: with secret "abc123" and the header "x-api-key" present
with the empty string as its value, `handleRequest` answers 401
"Invalid API key", not "Missing API key"; only an absent key is missing. -/
theorem handleRequest_empty_credential :
    handleRequest [("API_KEY", "abc123")]
      { RawPath := "/anything", RawQueryString := "", Headers := [("x-api-key", "")],
        Method := "GET", Body := "", IsBase64Encoded := false } =
      ({ StatusCode := 401,
         Headers := [("Content-Type", "application/json")],
         Body := "\x7b\"error\":\"Invalid API key\"\x7d" }, none) ∧
    handleRequest [("API_KEY", "abc123")]
      { RawPath := "/anything", RawQueryString := "", Headers := [],
        Method := "GET", Body := "", IsBase64Encoded := false } =
      ({ StatusCode := 401,
         Headers := [("Content-Type", "application/json")],
         Body := "\x7b\"error\":\"Missing API key\"\x7d" }, none) := by
  decide

end cmd.lambda

/-! ## The authentication middleware -/

namespace http

/-- After `Set`, `Get` under the same name returns the value set. -/
theorem Header.Get_Set (h : Header) (key value : String) :
    (h.Set key value).Get key = value := by
  simp [Header.Get, Header.Set, List.lookup]

end http

namespace middleware

/-- What `writeUnauthorized` leaves in a recorder whose header is not yet
written, whatever headers and body it already holds: code 401, the headers
with Content-Type set to application/json (live and snapshotted), and the
marshalled error object with a newline appended to the body. -/
theorem writeUnauthorized_recorder (d : String → String) (rec : httptest.ResponseRecorder d)
    (message text : String)
    (hm : json.Marshal (ErrorResponse.jsonFields { Error := message }) = .ok text)
    (hfresh : rec.wroteHeader = false) :
    writeUnauthorized rec message =
      .ok
        { Code := 401,
          HeaderMap := rec.HeaderMap.Set "Content-Type" "application/json",
          Body := rec.Body.map (fun body => body ++ (text ++ "\n")),
          snapHeader := rec.HeaderMap.Set "Content-Type" "application/json",
          wroteHeader := true } := by
  simp [writeUnauthorized, json.Encode, hm, http.setHeader, http.ResponseWriter.WriteHeader,
    http.ResponseWriter.Write, http.ResponseWriter.storeHeader, http.ResponseWriter.Header,
    httptest.ResponseRecorder.WriteHeader, httptest.ResponseRecorder.Write,
    httptest.ResponseRecorder.writeHeader, hfresh, http.checkWriteHeaderCode,
    http.StatusUnauthorized]

/-- C1: the decision of `AuthMiddleware`, first match wins. With the secret
empty or unset it answers with `writeUnauthorized` "API key not configured";
else with the X-API-Key header absent or empty, "Missing API key"; else with
a header value different from the secret, "Invalid API key"; in these three
cases the result does not depend on `next` and nothing is logged. Otherwise
the result is exactly that of `next` on the untouched writer. On every
recorder whose header is not yet written, whatever headers and body it
already holds, each denial leaves status 401, Content-Type set to
application/json (read back as such by `Get`), and appends to the body the
JSON object with the single member error = reason, ended by the newline that
`Encode` writes. -/
theorem AuthMiddleware_decision (next : http.HandlerFunc) (env : os.Env) (r : http.Request)
    (W : Type) [http.ResponseWriter W] (w : W)
    (d : String → String) (rec : httptest.ResponseRecorder d) :
    (os.Getenv env "API_KEY" = "" →
      AuthMiddleware next W env w r =
        (writeUnauthorized w "API key not configured").map (fun w => (w, []))) ∧
    (os.Getenv env "API_KEY" ≠ "" → r.Header.Get "X-API-Key" = "" →
      AuthMiddleware next W env w r =
        (writeUnauthorized w "Missing API key").map (fun w => (w, []))) ∧
    (os.Getenv env "API_KEY" ≠ "" → r.Header.Get "X-API-Key" ≠ "" →
      r.Header.Get "X-API-Key" ≠ os.Getenv env "API_KEY" →
      AuthMiddleware next W env w r =
        (writeUnauthorized w "Invalid API key").map (fun w => (w, []))) ∧
    (os.Getenv env "API_KEY" ≠ "" → r.Header.Get "X-API-Key" ≠ "" →
      r.Header.Get "X-API-Key" = os.Getenv env "API_KEY" →
      AuthMiddleware next W env w r = next W env w r) ∧
    (rec.wroteHeader = false → os.Getenv env "API_KEY" = "" →
      AuthMiddleware next (httptest.ResponseRecorder d) env rec r =
        .ok (
          { Code := 401,
            HeaderMap := rec.HeaderMap.Set "Content-Type" "application/json",
            Body := rec.Body.map
              (fun body => body ++ "\x7b\"error\":\"API key not configured\"\x7d\n"),
            snapHeader := rec.HeaderMap.Set "Content-Type" "application/json",
            wroteHeader := true }, [])) ∧
    (rec.wroteHeader = false → os.Getenv env "API_KEY" ≠ "" →
      r.Header.Get "X-API-Key" = "" →
      AuthMiddleware next (httptest.ResponseRecorder d) env rec r =
        .ok (
          { Code := 401,
            HeaderMap := rec.HeaderMap.Set "Content-Type" "application/json",
            Body := rec.Body.map
              (fun body => body ++ "\x7b\"error\":\"Missing API key\"\x7d\n"),
            snapHeader := rec.HeaderMap.Set "Content-Type" "application/json",
            wroteHeader := true }, [])) ∧
    (rec.wroteHeader = false → os.Getenv env "API_KEY" ≠ "" →
      r.Header.Get "X-API-Key" ≠ "" →
      r.Header.Get "X-API-Key" ≠ os.Getenv env "API_KEY" →
      AuthMiddleware next (httptest.ResponseRecorder d) env rec r =
        .ok (
          { Code := 401,
            HeaderMap := rec.HeaderMap.Set "Content-Type" "application/json",
            Body := rec.Body.map
              (fun body => body ++ "\x7b\"error\":\"Invalid API key\"\x7d\n"),
            snapHeader := rec.HeaderMap.Set "Content-Type" "application/json",
            wroteHeader := true }, [])) ∧
    (http.Header.Get (rec.HeaderMap.Set "Content-Type" "application/json") "Content-Type" =
      "application/json") := by
  have hconfigured : os.Getenv env "API_KEY" = "" →
      ∀ (V : Type) [http.ResponseWriter V] (v : V), AuthMiddleware next V env v r =
        (writeUnauthorized v "API key not configured").map (fun w => (w, [])) := by
    intro hs V _ v
    unfold AuthMiddleware
    simp only [hs, if_true]
  have hmissing : os.Getenv env "API_KEY" ≠ "" → r.Header.Get "X-API-Key" = "" →
      ∀ (V : Type) [http.ResponseWriter V] (v : V), AuthMiddleware next V env v r =
        (writeUnauthorized v "Missing API key").map (fun w => (w, [])) := by
    intro hs hh V _ v
    unfold AuthMiddleware
    simp only [hs, hh, if_false, if_true]
  have hinvalid : os.Getenv env "API_KEY" ≠ "" → r.Header.Get "X-API-Key" ≠ "" →
      r.Header.Get "X-API-Key" ≠ os.Getenv env "API_KEY" →
      ∀ (V : Type) [http.ResponseWriter V] (v : V), AuthMiddleware next V env v r =
        (writeUnauthorized v "Invalid API key").map (fun w => (w, [])) := by
    intro hs hh hne V _ v
    unfold AuthMiddleware
    simp only [hs, hh, hne, ne_eq, not_false_eq_true, if_false, if_true]
  refine ⟨fun hs => hconfigured hs W w, fun hs hh => hmissing hs hh W w,
    fun hs hh hne => hinvalid hs hh hne W w, ?_, ?_, ?_, ?_, http.Header.Get_Set _ _ _⟩
  · intro hs _ heq
    unfold AuthMiddleware
    simp only [hs, heq, ne_eq, not_true_eq_false, if_false]
  · intro hfresh hs
    rw [hconfigured hs, writeUnauthorized_recorder d rec "API key not configured"
      "\x7b\"error\":\"API key not configured\"\x7d" rfl hfresh]
    rfl
  · intro hfresh hs hh
    rw [hmissing hs hh, writeUnauthorized_recorder d rec "Missing API key"
      "\x7b\"error\":\"Missing API key\"\x7d" rfl hfresh]
    rfl
  · intro hfresh hs hh hne
    rw [hinvalid hs hh hne, writeUnauthorized_recorder d rec "Invalid API key"
      "\x7b\"error\":\"Invalid API key\"\x7d" rfl hfresh]
    rfl

/-- C1 on the four rows of `TestAuthMiddleware`, with the mock handler of the
test as `next`. The valid key reaches the mock handler. The three other rows,
served on a recorder that already carries a header X-Request-Id and the body
"log:", are denied: code 401, Content-Type application/json set next to the
header already there, the error object appended to the body. -/
theorem AuthMiddleware_decision_witness :
    AuthMiddleware handlertest.mockHandler (httptest.ResponseRecorder handlertest.sniffText)
        [("API_KEY", "test-api-key")] (httptest.NewRecorder handlertest.sniffText)
        (handlertest.NewRequest "GET" "/test" [("X-Api-Key", ["test-api-key"])]) =
      handlertest.mockHandler (httptest.ResponseRecorder handlertest.sniffText)
        [("API_KEY", "test-api-key")] (httptest.NewRecorder handlertest.sniffText)
        (handlertest.NewRequest "GET" "/test" [("X-Api-Key", ["test-api-key"])]) ∧
    AuthMiddleware handlertest.mockHandler (httptest.ResponseRecorder handlertest.sniffText)
        [("API_KEY", "test-api-key")]
        { Code := 200, HeaderMap := [("X-Request-Id", ["42"])], Body := some "log:",
          snapHeader := [], wroteHeader := false }
        (handlertest.NewRequest "GET" "/test" [("X-Api-Key", ["wrong-api-key"])]) =
      .ok (
        { Code := 401,
          HeaderMap := [("Content-Type", ["application/json"]), ("X-Request-Id", ["42"])],
          Body := some "log:\x7b\"error\":\"Invalid API key\"\x7d\n",
          snapHeader := [("Content-Type", ["application/json"]), ("X-Request-Id", ["42"])],
          wroteHeader := true }, []) ∧
    AuthMiddleware handlertest.mockHandler (httptest.ResponseRecorder handlertest.sniffText)
        [("API_KEY", "test-api-key")]
        { Code := 200, HeaderMap := [("X-Request-Id", ["42"])], Body := some "log:",
          snapHeader := [], wroteHeader := false }
        (handlertest.NewRequest "GET" "/test" []) =
      .ok (
        { Code := 401,
          HeaderMap := [("Content-Type", ["application/json"]), ("X-Request-Id", ["42"])],
          Body := some "log:\x7b\"error\":\"Missing API key\"\x7d\n",
          snapHeader := [("Content-Type", ["application/json"]), ("X-Request-Id", ["42"])],
          wroteHeader := true }, []) ∧
    AuthMiddleware handlertest.mockHandler (httptest.ResponseRecorder handlertest.sniffText)
        []
        { Code := 200, HeaderMap := [("X-Request-Id", ["42"])], Body := some "log:",
          snapHeader := [], wroteHeader := false }
        (handlertest.NewRequest "GET" "/test" [("X-Api-Key", ["some-key"])]) =
      .ok (
        { Code := 401,
          HeaderMap := [("Content-Type", ["application/json"]), ("X-Request-Id", ["42"])],
          Body := some "log:\x7b\"error\":\"API key not configured\"\x7d\n",
          snapHeader := [("Content-Type", ["application/json"]), ("X-Request-Id", ["42"])],
          wroteHeader := true }, []) :=
  ⟨(AuthMiddleware_decision handlertest.mockHandler [("API_KEY", "test-api-key")]
      (handlertest.NewRequest "GET" "/test" [("X-Api-Key", ["test-api-key"])])
      (httptest.ResponseRecorder handlertest.sniffText)
      (httptest.NewRecorder handlertest.sniffText)
      handlertest.sniffText (httptest.NewRecorder handlertest.sniffText)).2.2.2.1
      (by decide) (by decide) (by decide),
   (AuthMiddleware_decision handlertest.mockHandler [("API_KEY", "test-api-key")]
      (handlertest.NewRequest "GET" "/test" [("X-Api-Key", ["wrong-api-key"])])
      (httptest.ResponseRecorder handlertest.sniffText)
      (httptest.NewRecorder handlertest.sniffText)
      handlertest.sniffText
      { Code := 200, HeaderMap := [("X-Request-Id", ["42"])], Body := some "log:",
        snapHeader := [], wroteHeader := false }).2.2.2.2.2.2.1
      rfl (by decide) (by decide) (by decide),
   (AuthMiddleware_decision handlertest.mockHandler [("API_KEY", "test-api-key")]
      (handlertest.NewRequest "GET" "/test" [])
      (httptest.ResponseRecorder handlertest.sniffText)
      (httptest.NewRecorder handlertest.sniffText)
      handlertest.sniffText
      { Code := 200, HeaderMap := [("X-Request-Id", ["42"])], Body := some "log:",
        snapHeader := [], wroteHeader := false }).2.2.2.2.2.1
      rfl (by decide) (by decide),
   (AuthMiddleware_decision handlertest.mockHandler []
      (handlertest.NewRequest "GET" "/test" [("X-Api-Key", ["some-key"])])
      (httptest.ResponseRecorder handlertest.sniffText)
      (httptest.NewRecorder handlertest.sniffText)
      handlertest.sniffText
      { Code := 200, HeaderMap := [("X-Request-Id", ["42"])], Body := some "log:",
        snapHeader := [], wroteHeader := false }).2.2.2.2.1
      rfl (by decide)⟩

/-- C2 on the code: the two entry points disagree on the reason of a denial.
With the secret unset and no credential header, `AuthMiddleware` answers 401
"API key not configured" and `handleRequest` 401 "Missing API key"; with
secret "abc123" and the credential header present and empty, `AuthMiddleware`
answers 401 "Missing API key" and `handleRequest` 401 "Invalid API key". -/
theorem auth_reason_parity_broken (d : String → String) :
    (AuthMiddleware handlertest.mockHandler (httptest.ResponseRecorder d) []
        (httptest.NewRecorder d) (handlertest.NewRequest "GET" "/test" []) =
      .ok (
        { Code := 401,
          HeaderMap := [("Content-Type", ["application/json"])],
          Body := some "\x7b\"error\":\"API key not configured\"\x7d\n",
          snapHeader := [("Content-Type", ["application/json"])],
          wroteHeader := true }, []) ∧
     (cmd.lambda.handleRequest []
        { RawPath := "/test", RawQueryString := "", Headers := [],
          Method := "GET", Body := "", IsBase64Encoded := false }).1 =
        { StatusCode := 401,
          Headers := [("Content-Type", "application/json")],
          Body := "\x7b\"error\":\"Missing API key\"\x7d" }) ∧
    (AuthMiddleware handlertest.mockHandler (httptest.ResponseRecorder d)
        [("API_KEY", "abc123")] (httptest.NewRecorder d)
        (handlertest.NewRequest "GET" "/test" [("X-Api-Key", [""])]) =
      .ok (
        { Code := 401,
          HeaderMap := [("Content-Type", ["application/json"])],
          Body := some "\x7b\"error\":\"Missing API key\"\x7d\n",
          snapHeader := [("Content-Type", ["application/json"])],
          wroteHeader := true }, []) ∧
     (cmd.lambda.handleRequest [("API_KEY", "abc123")]
        { RawPath := "/test", RawQueryString := "", Headers := [("x-api-key", "")],
          Method := "GET", Body := "", IsBase64Encoded := false }).1 =
        { StatusCode := 401,
          Headers := [("Content-Type", "application/json")],
          Body := "\x7b\"error\":\"Invalid API key\"\x7d" }) :=
  ⟨⟨rfl, by decide⟩, ⟨rfl, by decide⟩⟩

end middleware

/-! ## The server and its request logger -/

namespace server

/-- The part of C8 that holds, on a fresh recorder. A handler that makes the
single call `WriteHeader(c)` with `c` in 100..999 leaves code `c` in the
recorder and `c` in the log line; with `c` outside that range the call panics
and nothing is logged. A handler that makes no call leaves the recorder
untouched, and the logged status is the default 200. -/
theorem loggingMiddleware_single_WriteHeader (d : String → String) (c : Int)
    (r : http.Request) :
    loggingMiddleware (handlertest.calling [.WriteHeader c]) (httptest.ResponseRecorder d) []
        (httptest.NewRecorder d) r =
      (if c < 100 ∨ c > 999 then .error (.invalidWriteHeaderCode c)
       else .ok (
        { Code := c, HeaderMap := [], Body := some "", snapHeader := [],
          wroteHeader := true },
        [{ RemoteAddr := r.RemoteAddr, Method := r.Method, Path := r.URL.Path,
           statusCode := c }])) ∧
    loggingMiddleware (handlertest.calling []) (httptest.ResponseRecorder d) []
        (httptest.NewRecorder d) r =
      .ok (httptest.NewRecorder d,
        [{ RemoteAddr := r.RemoteAddr, Method := r.Method, Path := r.URL.Path,
           statusCode := 200 }]) := by
  refine ⟨?_, rfl⟩
  by_cases hc : c < 100 ∨ c > 999
  · simp [loggingMiddleware, handlertest.calling, handlertest.perform,
      http.ResponseWriter.WriteHeader, responseWriter.WriteHeader,
      httptest.ResponseRecorder.WriteHeader, httptest.NewRecorder,
      http.checkWriteHeaderCode, hc]
  · simp [loggingMiddleware, handlertest.calling, handlertest.perform,
      http.ResponseWriter.WriteHeader, responseWriter.WriteHeader,
      httptest.ResponseRecorder.WriteHeader, httptest.NewRecorder,
      http.checkWriteHeaderCode, hc]

/-- C8 on the code, served on a fresh recorder, whatever the content sniffer.
A handler that writes the body "x" and then calls `WriteHeader(500)`: the
recorder holds code 200 and the line logged carries 500. A handler that calls
`WriteHeader(404)` and then `WriteHeader(500)`: the recorder holds code 404
and the line logged carries 500. The later `WriteHeader` does not take effect
in the recorder, yet `responseWriter.WriteHeader` stores its code. -/
theorem loggingMiddleware_logs_superseded_status (d : String → String) :
    (loggingMiddleware (handlertest.calling [.Write "x", .WriteHeader 500])
        (httptest.ResponseRecorder d) [] (httptest.NewRecorder d)
        (handlertest.NewRequest "GET" "/test" [])).map
        (fun out => (out.1.Code, out.1.ResultStatusCode, out.2)) =
      .ok (200, 200,
        [{ RemoteAddr := "192.0.2.1:1234", Method := "GET", Path := "/test",
           statusCode := 500 }]) ∧
    (loggingMiddleware (handlertest.calling [.WriteHeader 404, .WriteHeader 500])
        (httptest.ResponseRecorder d) [] (httptest.NewRecorder d)
        (handlertest.NewRequest "GET" "/test" [])).map
        (fun out => (out.1.Code, out.1.ResultStatusCode, out.2)) =
      .ok (404, 404,
        [{ RemoteAddr := "192.0.2.1:1234", Method := "GET", Path := "/test",
           statusCode := 500 }]) :=
  ⟨rfl, rfl⟩

/-- C9: for every address `addr` (and whatever the health handler is),
`New addr` returns a non-nil `Server` whose `httpServer` is non-nil, with
`Addr` equal to `addr`, read and write timeouts of 15 seconds and an idle
timeout of 60 seconds, all as multiples of `time.Second`, and a non-nil
handler which, on the exact path "/health", behaves as the health handler
under the request logger alone: for every environment and every request
headers, no authentication gate is passed. -/
theorem New_configuration (HealthHandler : http.HandlerFunc) (addr : String) :
    ∃ (srv : Server) (hs : http.Server) (handler : http.Handler),
      New HealthHandler addr = some srv ∧
      srv.httpServer = some hs ∧
      hs.Addr = addr ∧
      hs.ReadTimeout = 15 * time.Second ∧
      hs.WriteTimeout = 15 * time.Second ∧
      hs.IdleTimeout = 60 * time.Second ∧
      hs.Handler = some handler ∧
      ∀ (W : Type) [http.ResponseWriter W] (env : os.Env) (w : W) (r : http.Request),
        r.URL.Path = "/health" →
        handler W env w r = loggingMiddleware HealthHandler W env w r := by
  refine ⟨_, _, _, rfl, rfl, rfl, rfl, rfl, rfl, rfl, ?_⟩
  intro W _ env w r hpath
  simp [loggingMiddleware, http.ServeMux.ServeHTTP, http.ServeMux.HandleFunc,
    http.NewServeMux, hpath, List.lookup]

/-- C9 at address ":8080", with the mock handler of the tests registered as
health handler: the handler of the server, given GET /health with no
credential while no secret is configured, answers what the mock handler
writes (200, "success") and logs status 200. -/
theorem New_configuration_witness :
    ∃ (srv : Server) (hs : http.Server) (handler : http.Handler),
      New handlertest.mockHandler ":8080" = some srv ∧
      srv.httpServer = some hs ∧
      hs.Addr = ":8080" ∧
      hs.Handler = some handler ∧
      handler (httptest.ResponseRecorder handlertest.sniffText) []
          (httptest.NewRecorder handlertest.sniffText)
          (handlertest.NewRequest "GET" "/health" []) =
        .ok (
          { Code := 200, HeaderMap := [], Body := some "success", snapHeader := [],
            wroteHeader := true },
          [{ RemoteAddr := "192.0.2.1:1234", Method := "GET", Path := "/health",
             statusCode := 200 }]) := by
  obtain ⟨srv, hs, handler, hnew, hsrv, haddr, _, _, _, hhandler, hroute⟩ :=
    New_configuration handlertest.mockHandler ":8080"
  refine ⟨srv, hs, handler, hnew, hsrv, haddr, hhandler, ?_⟩
  rw [hroute (httptest.ResponseRecorder handlertest.sniffText) []
    (httptest.NewRecorder handlertest.sniffText)
    (handlertest.NewRequest "GET" "/health" []) rfl]
  rfl

end server
